import Mathlib

/-!
Shallow embedding of the itinerary generator of `src/services/geminiService.ts`
(`generateTrip`), together with the data model of `types.ts` as documented in
the specification.  JavaScript runtime values that may be `undefined` (or that
the code tests for truthiness) are modelled with `Option`; all other fields are
plain strings.  The freshness token `Date.now()` is modelled as an explicit
`Nat` parameter, and the outcome of the external request/parse pipeline as an
explicit sum type (`ApiOutcome`).
-/

/-- Modelled from the spec: `Activity` of the missing `types.ts`
(`id`, `title`, `description`, `time`, `type`, `location`, all display
strings).  Activities are passed through `generateTrip` untouched. -/
structure Activity where
  id : String
  title : String
  description : String
  time : String
  type : String
  location : String
deriving Repr, DecidableEq

/-- Modelled from the spec: `DayPlan` of the missing `types.ts`.  The fields
the generator tests for truthiness (`id`, `mainActivities`, `alternatives`)
are `Option`, since the value cast out of `JSON.parse` may lack them. -/
structure DayPlan where
  id : Option String
  date : String
  vibeLabel : String
  summary : String
  mainActivities : Option (List Activity)
  alternatives : Option (List Activity)
deriving Repr, DecidableEq

/-- Modelled from the spec: `Trip` of the missing `types.ts`.  The same value
space is used for the value produced by `JSON.parse(text) as Trip` (whose
fields may all be absent) and for the sanitized result. -/
structure Trip where
  id : Option String
  destination : Option String
  days : Option (List DayPlan)
deriving Repr, DecidableEq

/-- Modelled from the spec: the slice of `UserPreferences` consumed by the
generator (`vibes`, `energy`, optional `destination`; empty string and absent
both count as "unset", exactly as JavaScript truthiness does). -/
structure UserPreferences where
  vibes : List String
  energy : Nat
  destination : Option String
deriving Repr, DecidableEq

/-- JavaScript `a || b` on string-valued expressions: `undefined` and the
empty string are falsy, every other string is truthy. -/
def jsOr (a : Option String) (b : Option String) : Option String :=
  match a with
  | none => b
  | some s => if s = "" then b else some s

/-- The built-in placeholder itinerary `MOCK_TRIP` of
`src/services/geminiService.ts`, verbatim. -/
def MOCK_TRIP : Trip :=
  { id := some "mock-trip-1"
    destination := some "Kyoto, Japan"
    days := some
      [ { id := some "d1"
          date := "Day 1"
          vibeLabel := "Calm Arrival"
          summary := "Settling in with quiet temples and tea."
          mainActivities := some
            [ { id := "a1", title := "Nanzen-ji Temple"
                description := "Walk through the massive gate and explore the aqueduct."
                time := "10:00 AM", type := "main", location := "Sakyo Ward" }
            , { id := "a2", title := "Blue Bottle Coffee"
                description := "Minimalist coffee in a renovated machiya."
                time := "2:00 PM", type := "rest", location := "Kyoto" }
            , { id := "a3", title := "Philosopher's Path"
                description := "A meditative walk along the canal."
                time := "4:00 PM", type := "main", location := "Higashiyama" } ]
          alternatives := some
            [ { id := "alt1", title := "Eikan-do"
                description := "Famous for autumn colors, very quiet."
                time := "Flexible", type := "main", location := "Sakyo" } ] }
      , { id := some "d2"
          date := "Day 2"
          vibeLabel := "Hidden Gems"
          summary := "Avoiding the crowds in Northern Kyoto."
          mainActivities := some
            [ { id := "a4", title := "Daitoku-ji"
                description := "A complex of zen gardens."
                time := "09:00 AM", type := "main", location := "Kita Ward" }
            , { id := "a5", title := "Sarasa Nishijin"
                description := "Lunch in an old bathhouse."
                time := "12:30 PM", type := "food", location := "Nishijin" } ]
          alternatives := some [] } ] }

/-- The template literal `` `day-${index}-${Date.now()}` `` of the success
path, with `Date.now()` as the token `now`. -/
def mkDayId (i now : Nat) : String :=
  "day-" ++ Nat.repr i ++ "-" ++ Nat.repr now

/-- The template literal `` `fallback-day-${i}-${Date.now()}` `` of the
fallback path. -/
def mkFallbackId (i now : Nat) : String :=
  "fallback-day-" ++ Nat.repr i ++ "-" ++ Nat.repr now

/-- One step of the success-path sanitizer:
`{...day, id: day.id || ..., mainActivities: day.mainActivities || [],
alternatives: day.alternatives || []}`. -/
def sanitizeDay (now i : Nat) (day : DayPlan) : DayPlan :=
  { day with
    id := jsOr day.id (some (mkDayId i now))
    mainActivities := some (day.mainActivities.getD [])
    alternatives := some (day.alternatives.getD []) }

/-- `(data.days || []).map((day, index) => ...)`: indexed map over the parsed
days, `i` being the index of the head. -/
def sanitizeDays (now : Nat) : Nat → List DayPlan → List DayPlan
  | _, [] => []
  | i, day :: rest => sanitizeDay now i day :: sanitizeDays now (i + 1) rest

/-- The `sanitizedTrip` object literal of the success path. -/
def sanitizedTrip (prefs : UserPreferences) (data : Trip) (now : Nat) : Trip :=
  { id := some (Nat.repr now)
    destination := jsOr data.destination (jsOr prefs.destination (some "Unknown Destination"))
    days := some (sanitizeDays now 0 (data.days.getD [])) }

/-- One step of the fallback day map: `{...d, id: ` ``fallback-day-${i}-${Date.now()}`` `}`. -/
def fallbackDay (now i : Nat) (day : DayPlan) : DayPlan :=
  { day with id := some (mkFallbackId i now) }

/-- `MOCK_TRIP.days.map((d, i) => ...)` of the fallback path. -/
def fallbackDays (now : Nat) : Nat → List DayPlan → List DayPlan
  | _, [] => []
  | i, day :: rest => fallbackDay now i day :: fallbackDays now (i + 1) rest

/-- The value returned by the `catch` handler:
`{...MOCK_TRIP, destination: prefs.destination || MOCK_TRIP.destination,
days: MOCK_TRIP.days.map(...)}`. -/
def fallbackTrip (prefs : UserPreferences) (now : Nat) : Trip :=
  { MOCK_TRIP with
    destination := jsOr prefs.destination MOCK_TRIP.destination
    days := some (fallbackDays now 0 (MOCK_TRIP.days.getD [])) }

/-- Outcome of the external request / payload-extraction / JSON-parse
pipeline, the three stages of the `try` block that precede the `days`
validation.  `transportError` is a rejected `generateContent` call,
`emptyText` a response whose `text` is falsy, `parseError` a `JSON.parse`
throw, and `parsed` carries the successfully parsed value. -/
inductive ApiOutcome where
  | transportError
  | emptyText
  | parseError
  | parsed (data : Trip)
deriving Repr, DecidableEq

/-- `generateTrip` of `src/services/geminiService.ts`: on a parsed response,
validate `!data.days || data.days.length === 0` and sanitize; every thrown
error lands in the `catch` handler, which returns the fallback trip. -/
def generateTrip (prefs : UserPreferences) (o : ApiOutcome) (now : Nat) : Trip :=
  match o with
  | .parsed data =>
    match data.days with
    | none => fallbackTrip prefs now
    | some ds => if ds.length = 0 then fallbackTrip prefs now else sanitizedTrip prefs data now
  | _ => fallbackTrip prefs now

/-- Whether an outcome routes `generateTrip` to the fallback path (any of the
four failure kinds of the error taxonomy). -/
def takesFallback (o : ApiOutcome) : Prop :=
  match o with
  | .parsed data => data.days = none ∨ data.days = some []
  | _ => True

instance (o : ApiOutcome) : Decidable (takesFallback o) := by
  unfold takesFallback
  match o with
  | .parsed data => exact inferInstance
  | .transportError => exact inferInstance
  | .emptyText => exact inferInstance
  | .parseError => exact inferInstance

/-- All identifiers of a returned trip: the trip id followed by the day ids. -/
def tripIds (t : Trip) : List String :=
  t.id.getD "" :: (t.days.getD []).map (fun d => d.id.getD "")

/-- The day ids of a returned trip. -/
def dayIds (t : Trip) : List String :=
  (t.days.getD []).map (fun d => d.id.getD "")

/-- The resolved id of a sanitized day: the external id when present and
non-empty, else the synthesized position-based id. -/
def resolveId (now i : Nat) (day : DayPlan) : String :=
  match day.id with
  | none => mkDayId i now
  | some s => if s = "" then mkDayId i now else s

/-- The "hint" ids of a parsed day list: the day ids that are present and
non-empty, in order (these are kept verbatim by the sanitizer). -/
def hintIdsL (ds : List DayPlan) : List String :=
  ds.filterMap (fun d =>
    match d.id with
    | none => none
    | some s => if s = "" then none else some s)

/-- Hypotheses under which the identifiers of one generation result cannot
collide: the response's non-empty day ids are pairwise distinct, and none of
them coincides with a synthesized day id or with the locally generated trip
id.  Failure outcomes need no hypothesis. -/
def idHintsOk (o : ApiOutcome) (now : Nat) : Prop :=
  match o with
  | .parsed data =>
      (hintIdsL (data.days.getD [])).Nodup ∧
        ∀ s ∈ hintIdsL (data.days.getD []), (∀ i, s ≠ mkDayId i now) ∧ s ≠ Nat.repr now
  | _ => True

/-- Decimal evaluation of a character list; left inverse of `Nat.repr`. -/
def digitsVal (l : List Char) : Nat :=
  l.foldl (fun acc c => acc * 10 + (c.toNat - 48)) 0

/-- The non-id content of an activity. -/
def actContent (a : Activity) : String × String × String × String × String :=
  (a.title, a.description, a.time, a.type, a.location)

/-- The non-id content of a day plan. -/
def dayContent (d : DayPlan) :=
  (d.date, d.vibeLabel, d.summary,
    (d.mainActivities.getD []).map actContent,
    (d.alternatives.getD []).map actContent)

/-- The non-id content of a trip. -/
def tripContent (t : Trip) :=
  (t.destination, (t.days.getD []).map dayContent)

/-- The frame of a day plan untouched by sanitization. -/
def dayFrame (d : DayPlan) : String × String × String :=
  (d.date, d.vibeLabel, d.summary)

/-- Concrete preferences with a caller-supplied destination. -/
def prefsLisbon : UserPreferences := ⟨["art", "food"], 60, some "Lisbon, Portugal"⟩

/-- Concrete preferences with the destination absent. -/
def prefsUnset : UserPreferences := ⟨["calm"], 40, none⟩

/-- Concrete preferences with an empty-string destination. -/
def prefsEmptyDest : UserPreferences := ⟨[], 10, some ""⟩

/-- A parsed day carrying no id and no activity arrays. -/
def dayNoId : DayPlan := ⟨none, "Day 1", "Calm", "Settle in.", none, none⟩

/-- A parsed day carrying its own non-empty id. -/
def dayCustom : DayPlan := ⟨some "custom-1", "Day 2", "Busy", "Full schedule.", some [], none⟩

/-- A parsed day with the duplicated id used by the uniqueness counterexample. -/
def dayDup : DayPlan := ⟨some "x", "Day 1", "v", "s", none, none⟩

/-- A parsed response whose `days` is present but empty. -/
def dataEmptyDays : Trip := ⟨some "r1", some "Porto, Portugal", some []⟩

/-- A parsed response with two well-formed days and no destination. -/
def dataGood : Trip := ⟨some "r2", none, some [dayCustom, dayNoId]⟩

/-- The same response as `dataGood` except for its top-level id. -/
def dataGood2 : Trip := ⟨some "other-id", none, some [dayCustom, dayNoId]⟩

/-- A parsed response whose two days carry the same non-empty id. -/
def dataDup : Trip := ⟨none, some "Lisbon, Portugal", some [dayDup, dayDup]⟩

/-! ### Decimal representation machinery -/

/-- Characters produced by `Nat.digitChar` below ten are decimal digits. -/
lemma digitChar_isDigit (m : Nat) (h : m < 10) : (Nat.digitChar m).isDigit = true := by
  interval_cases m <;> decide

/-- Decimal value of a digit character produced by `Nat.digitChar`. -/
lemma digitChar_val (m : Nat) (h : m < 10) : (Nat.digitChar m).toNat - 48 = m := by
  interval_cases m <;> decide

/-- Every character emitted by `Nat.toDigitsCore` in base ten is either from
the accumulator or a decimal digit. -/
lemma toDigitsCore_mem (f : Nat) : ∀ (n : Nat) (acc : List Char) (c : Char),
    c ∈ Nat.toDigitsCore 10 f n acc → c ∈ acc ∨ c.isDigit = true := by
  induction f with
  | zero => intro n acc c hc; exact Or.inl hc
  | succ f ih =>
    intro n acc c hc
    simp only [Nat.toDigitsCore] at hc
    by_cases h0 : n / 10 = 0
    · rw [if_pos h0] at hc
      rcases List.mem_cons.mp hc with h | h
      · exact Or.inr (h ▸ digitChar_isDigit _ (Nat.mod_lt n (by norm_num)))
      · exact Or.inl h
    · rw [if_neg h0] at hc
      rcases ih (n / 10) (Nat.digitChar (n % 10) :: acc) c hc with h | h
      · rcases List.mem_cons.mp h with h | h
        · exact Or.inr (h ▸ digitChar_isDigit _ (Nat.mod_lt n (by norm_num)))
        · exact Or.inl h
      · exact Or.inr h

/-- `Nat.repr` unfolded to `Nat.toDigitsCore`. -/
lemma repr_data (n : Nat) : (Nat.repr n).data = Nat.toDigitsCore 10 (n + 1) n [] := rfl

/-- Every character of the decimal representation of a natural number is a
decimal digit. -/
lemma repr_mem_isDigit (n : Nat) (c : Char) (hc : c ∈ (Nat.repr n).data) : c.isDigit = true := by
  rw [repr_data] at hc
  rcases toDigitsCore_mem (n + 1) n [] c hc with h | h
  · exact absurd h (List.not_mem_nil c)
  · exact h

/-- Folding the decimal evaluation over `Nat.toDigitsCore` recovers the
number, relative to the accumulator. -/
lemma toDigitsCore_foldl (f : Nat) : ∀ (n : Nat) (acc : List Char), n < 10 ^ f →
    List.foldl (fun a c => a * 10 + (c.toNat - 48)) 0 (Nat.toDigitsCore 10 f n acc)
      = List.foldl (fun a c => a * 10 + (c.toNat - 48)) n acc := by
  induction f with
  | zero =>
    intro n acc h
    have hn : n = 0 := by omega
    subst hn
    rfl
  | succ f ih =>
    intro n acc h
    simp only [Nat.toDigitsCore]
    by_cases h0 : n / 10 = 0
    · rw [if_pos h0]
      simp only [List.foldl_cons]
      have hn : n < 10 := by omega
      rw [digitChar_val _ (Nat.mod_lt n (by norm_num)), Nat.zero_mul, Nat.zero_add,
        Nat.mod_eq_of_lt hn]
    · rw [if_neg h0]
      have hlt : n / 10 < 10 ^ f := by
        rw [Nat.div_lt_iff_lt_mul (by norm_num)]
        rw [pow_succ] at h
        exact h
      rw [ih (n / 10) (Nat.digitChar (n % 10) :: acc) hlt]
      simp only [List.foldl_cons]
      congr 1
      rw [digitChar_val _ (Nat.mod_lt n (by norm_num))]
      omega

/-- The decimal evaluation of `Nat.repr n` is `n`. -/
lemma repr_val (n : Nat) : digitsVal (Nat.repr n).data = n := by
  have h : n < 10 ^ (n + 1) :=
    lt_of_lt_of_le (Nat.lt_pow_self (by norm_num) n)
      (Nat.pow_le_pow_right (by norm_num) (Nat.le_succ n))
  rw [digitsVal, repr_data]
  exact toDigitsCore_foldl (n + 1) n [] h

/-- `Nat.repr` is injective. -/
lemma repr_injective : Function.Injective Nat.repr := by
  intro a b h
  have hv : digitsVal (Nat.repr a).data = digitsVal (Nat.repr b).data := by rw [h]
  rwa [repr_val, repr_val] at hv

/-- No character of a decimal representation is a dash. -/
lemma repr_no_dash (n : Nat) (c : Char) (hc : c ∈ (Nat.repr n).data) : c ≠ '-' := by
  intro he
  have h := repr_mem_isDigit n c hc
  rw [he] at h
  exact absurd h (by decide)

/-- A decimal representation never starts with a non-digit character. -/
lemma repr_data_ne_cons (n : Nat) (c : Char) (hc : c.isDigit = false) (rest : List Char) :
    (Nat.repr n).data ≠ c :: rest := by
  intro he
  have hmem : c ∈ (Nat.repr n).data := by rw [he]; exact List.mem_cons_self c rest
  have h := repr_mem_isDigit n c hmem
  rw [h] at hc
  exact absurd hc (by decide)

/-- Splitting a character list at the first dash is unique when neither
prefix contains a dash. -/
lemma append_dash_inj : ∀ (xs ys as bs : List Char), (∀ c ∈ xs, c ≠ '-') →
    (∀ c ∈ ys, c ≠ '-') → xs ++ '-' :: as = ys ++ '-' :: bs → xs = ys ∧ as = bs := by
  intro xs
  induction xs with
  | nil =>
    intro ys as bs _ hy h
    cases ys with
    | nil =>
      simp only [List.nil_append, List.cons.injEq] at h
      exact ⟨rfl, h.2⟩
    | cons y ys =>
      simp only [List.nil_append, List.cons_append, List.cons.injEq] at h
      exact absurd h.1.symm (hy y (List.mem_cons_self y ys))
  | cons x xs ih =>
    intro ys as bs hx hy h
    cases ys with
    | nil =>
      simp only [List.cons_append, List.nil_append, List.cons.injEq] at h
      exact absurd h.1 (hx x (List.mem_cons_self x xs))
    | cons y ys =>
      simp only [List.cons_append, List.cons.injEq] at h
      obtain ⟨hxy, ht⟩ := h
      obtain ⟨h1, h2⟩ := ih ys as bs (fun c hc => hx c (List.mem_cons_of_mem x hc))
        (fun c hc => hy c (List.mem_cons_of_mem y hc)) ht
      exact ⟨by rw [hxy, h1], h2⟩

/-! ### Identifier string lemmas -/

/-- Character decomposition of a synthesized success-path day id. -/
lemma mkDayId_data (i now : Nat) :
    (mkDayId i now).data
      = 'd' :: 'a' :: 'y' :: '-' :: ((Nat.repr i).data ++ '-' :: (Nat.repr now).data) := by
  simp [mkDayId, String.data_append]

/-- Character decomposition of a fallback day id. -/
lemma mkFallbackId_data (i now : Nat) :
    (mkFallbackId i now).data
      = 'f' :: 'a' :: 'l' :: 'l' :: 'b' :: 'a' :: 'c' :: 'k' :: '-' :: 'd' :: 'a' :: 'y' :: '-'
          :: ((Nat.repr i).data ++ '-' :: (Nat.repr now).data) := by
  simp [mkFallbackId, String.data_append]

/-- Synthesized day ids determine their position and freshness token. -/
lemma mkDayId_inj (i now j now2 : Nat) (h : mkDayId i now = mkDayId j now2) :
    i = j ∧ now = now2 := by
  have hd := congrArg String.data h
  rw [mkDayId_data, mkDayId_data] at hd
  simp only [List.cons.injEq, true_and] at hd
  obtain ⟨h1, h2⟩ := append_dash_inj (Nat.repr i).data (Nat.repr j).data
    (Nat.repr now).data (Nat.repr now2).data (repr_no_dash i) (repr_no_dash j) hd
  exact ⟨repr_injective (String.ext h1), repr_injective (String.ext h2)⟩

/-- Fallback day ids determine their position and freshness token. -/
lemma mkFallbackId_inj (i now j now2 : Nat) (h : mkFallbackId i now = mkFallbackId j now2) :
    i = j ∧ now = now2 := by
  have hd := congrArg String.data h
  rw [mkFallbackId_data, mkFallbackId_data] at hd
  simp only [List.cons.injEq, true_and] at hd
  obtain ⟨h1, h2⟩ := append_dash_inj (Nat.repr i).data (Nat.repr j).data
    (Nat.repr now).data (Nat.repr now2).data (repr_no_dash i) (repr_no_dash j) hd
  exact ⟨repr_injective (String.ext h1), repr_injective (String.ext h2)⟩

/-- A string whose first character is not `d` is never a synthesized
success-path day id. -/
lemma ne_mkDayId_of_head (s : String) (h : s.data.head? ≠ some 'd') (i now : Nat) :
    s ≠ mkDayId i now := by
  intro he
  apply h
  rw [he, mkDayId_data]
  rfl

/-- The locally generated trip id (a decimal numeral) is never a synthesized
day id. -/
lemma repr_ne_mkDayId (n i now : Nat) : Nat.repr n ≠ mkDayId i now := by
  intro he
  have hd := congrArg String.data he
  rw [mkDayId_data] at hd
  exact absurd hd (repr_data_ne_cons n 'd' (by decide) _)

/-- The mock trip id is never a fallback day id. -/
lemma mock_ne_mkFallbackId (i now : Nat) : "mock-trip-1" ≠ mkFallbackId i now := by
  intro he
  have hd := congrArg String.data he
  rw [mkFallbackId_data] at hd
  rw [show ("mock-trip-1").data
      = 'm' :: 'o' :: 'c' :: 'k' :: '-' :: 't' :: 'r' :: 'i' :: 'p' :: '-' :: ['1'] from rfl,
    List.cons.injEq] at hd
  exact absurd hd.1 (by decide)

/-! ### Reductions of `generateTrip` -/

/-- JavaScript `a || b` when `a` is falsy. -/
lemma jsOr_unset (a b : Option String) (h : a = none ∨ a = some "") : jsOr a b = b := by
  rcases h with h | h <;> simp [jsOr, h]

/-- JavaScript `a || b` when `a` is a non-empty string. -/
lemma jsOr_some (s : String) (b : Option String) (hs : s ≠ "") : jsOr (some s) b = some s := by
  simp [jsOr, hs]

/-- Every failure outcome makes `generateTrip` return the fallback trip. -/
lemma generateTrip_fallback_of (prefs : UserPreferences) (o : ApiOutcome) (now : Nat)
    (h : takesFallback o) : generateTrip prefs o now = fallbackTrip prefs now := by
  match o with
  | .transportError => rfl
  | .emptyText => rfl
  | .parseError => rfl
  | .parsed data =>
    have h2 : data.days = none ∨ data.days = some [] := h
    rcases h2 with h2 | h2 <;> simp [generateTrip, h2]

/-- A parsed response with a non-empty day list takes the success path. -/
lemma generateTrip_success (prefs : UserPreferences) (data : Trip) (now : Nat)
    (ds : List DayPlan) (h : data.days = some ds) (hne : ds ≠ []) :
    generateTrip prefs (.parsed data) now = sanitizedTrip prefs data now := by
  have hlen : ds.length ≠ 0 := fun h0 => hne (List.length_eq_zero.mp h0)
  simp [generateTrip, h, hlen]

/-- The identifiers of the fallback trip, computed. -/
lemma tripIds_fallback (prefs : UserPreferences) (now : Nat) :
    tripIds (fallbackTrip prefs now)
      = ["mock-trip-1", mkFallbackId 0 now, mkFallbackId 1 now] := rfl

/-- The day ids of the fallback trip, computed. -/
lemma dayIds_fallback (prefs : UserPreferences) (now : Nat) :
    dayIds (fallbackTrip prefs now) = [mkFallbackId 0 now, mkFallbackId 1 now] := rfl

/-- The sanitized day id, as a total function. -/
lemma sanitizeDay_id (now i : Nat) (d : DayPlan) :
    (sanitizeDay now i d).id = some (resolveId now i d) := by
  cases h : d.id with
  | none => simp [sanitizeDay, jsOr, resolveId, h]
  | some s => by_cases hs : s = "" <;> simp [sanitizeDay, jsOr, resolveId, h, hs]

/-- `hintIdsL` on a day without a usable id. -/
lemma hintIdsL_cons_unset (d : DayPlan) (rest : List DayPlan)
    (h : d.id = none ∨ d.id = some "") : hintIdsL (d :: rest) = hintIdsL rest := by
  rcases h with h | h <;> simp [hintIdsL, List.filterMap_cons, h]

/-- `hintIdsL` on a day with a usable id. -/
lemma hintIdsL_cons_some (d : DayPlan) (rest : List DayPlan) (s : String)
    (h : d.id = some s) (hs : s ≠ "") : hintIdsL (d :: rest) = s :: hintIdsL rest := by
  simp [hintIdsL, List.filterMap_cons, h, hs]

/-- Every sanitized day id is either a hint id of the input or a synthesized
id whose position is at least the starting index. -/
lemma sanitizeDays_ids_mem (now : Nat) : ∀ (ds : List DayPlan) (k : Nat) (s : String),
    s ∈ (sanitizeDays now k ds).map (fun d => d.id.getD "") →
    s ∈ hintIdsL ds ∨ ∃ j, k ≤ j ∧ s = mkDayId j now := by
  intro ds
  induction ds with
  | nil => intro k s hs; exact absurd hs (by simp [sanitizeDays])
  | cons d rest ih =>
    intro k s hs
    simp only [sanitizeDays, List.map_cons, List.mem_cons, sanitizeDay_id, Option.getD_some] at hs
    rcases hs with hs | hs
    · cases hid : d.id with
      | none =>
        right
        exact ⟨k, Nat.le_refl k, by rw [hs]; simp [resolveId, hid]⟩
      | some t =>
        by_cases ht : t = ""
        · right
          exact ⟨k, Nat.le_refl k, by rw [hs]; simp [resolveId, hid, ht]⟩
        · left
          rw [hintIdsL_cons_some d rest t hid ht]
          rw [hs]
          simp [resolveId, hid, ht]
    · rcases ih (k + 1) s hs with hhint | ⟨j, hj, heq⟩
      · left
        cases hid : d.id with
        | none => rw [hintIdsL_cons_unset d rest (Or.inl hid)]; exact hhint
        | some t =>
          by_cases ht : t = ""
          · rw [hintIdsL_cons_unset d rest (Or.inr (ht ▸ hid))]; exact hhint
          · rw [hintIdsL_cons_some d rest t hid ht]; exact List.mem_cons_of_mem t hhint
      · exact Or.inr ⟨j, Nat.le_of_succ_le hj, heq⟩

/-- Hint ids of the tail are hint ids of the whole list. -/
lemma hintIdsL_mem_cons (d : DayPlan) (rest : List DayPlan) (s : String)
    (h : s ∈ hintIdsL rest) : s ∈ hintIdsL (d :: rest) := by
  cases hid : d.id with
  | none => rw [hintIdsL_cons_unset d rest (Or.inl hid)]; exact h
  | some t =>
    by_cases ht : t = ""
    · rw [hintIdsL_cons_unset d rest (Or.inr (ht ▸ hid))]; exact h
    · rw [hintIdsL_cons_some d rest t hid ht]; exact List.mem_cons_of_mem t h

/-- Under the no-collision hypotheses, the sanitized day ids are pairwise
distinct. -/
lemma sanitizeDays_ids_nodup (now : Nat) : ∀ (ds : List DayPlan) (k : Nat),
    (hintIdsL ds).Nodup →
    (∀ s ∈ hintIdsL ds, ∀ i, s ≠ mkDayId i now) →
    ((sanitizeDays now k ds).map (fun d => d.id.getD "")).Nodup := by
  intro ds
  induction ds with
  | nil => intro k _ _; simp [sanitizeDays]
  | cons d rest ih =>
    intro k hnd hsafe
    simp only [sanitizeDays, List.map_cons, List.nodup_cons, sanitizeDay_id, Option.getD_some]
    constructor
    · intro hmem
      rcases sanitizeDays_ids_mem now rest (k + 1) _ hmem with hhint | ⟨j, hj, heq⟩
      · cases hid : d.id with
        | none =>
          have : resolveId now k d = mkDayId k now := by simp [resolveId, hid]
          exact hsafe _ (hintIdsL_mem_cons d rest _ hhint) k (by rw [← this])
        | some t =>
          by_cases ht : t = ""
          · have : resolveId now k d = mkDayId k now := by simp [resolveId, hid, ht]
            exact hsafe _ (hintIdsL_mem_cons d rest _ hhint) k (by rw [← this])
          · have hres : resolveId now k d = t := by simp [resolveId, hid, ht]
            rw [hintIdsL_cons_some d rest t hid ht] at hnd
            rw [hres] at hhint
            exact (List.nodup_cons.mp hnd).1 hhint
      · cases hid : d.id with
        | none =>
          have hres : resolveId now k d = mkDayId k now := by simp [resolveId, hid]
          rw [hres] at heq
          have := (mkDayId_inj k now j now heq).1
          omega
        | some t =>
          by_cases ht : t = ""
          · have hres : resolveId now k d = mkDayId k now := by simp [resolveId, hid, ht]
            rw [hres] at heq
            have := (mkDayId_inj k now j now heq).1
            omega
          · have hres : resolveId now k d = t := by simp [resolveId, hid, ht]
            have hmem2 : t ∈ hintIdsL (d :: rest) := by
              rw [hintIdsL_cons_some d rest t hid ht]; exact List.mem_cons_self t _
            rw [hres] at heq
            exact hsafe t hmem2 j heq
    · cases hid : d.id with
      | none =>
        rw [hintIdsL_cons_unset d rest (Or.inl hid)] at hnd hsafe
        exact ih (k + 1) hnd hsafe
      | some t =>
        by_cases ht : t = ""
        · rw [hintIdsL_cons_unset d rest (Or.inr (ht ▸ hid))] at hnd hsafe
          exact ih (k + 1) hnd hsafe
        · rw [hintIdsL_cons_some d rest t hid ht] at hnd hsafe
          exact ih (k + 1) (List.nodup_cons.mp hnd).2
            (fun s hs i => hsafe s (List.mem_cons_of_mem t hs) i)

/-- The locally generated trip id never appears among the sanitized day ids,
given the no-collision hypotheses. -/
lemma repr_not_mem_sanitizeDays (now : Nat) (ds : List DayPlan) (k : Nat)
    (hsafe : ∀ s ∈ hintIdsL ds, s ≠ Nat.repr now) :
    Nat.repr now ∉ (sanitizeDays now k ds).map (fun d => d.id.getD "") := by
  intro hmem
  rcases sanitizeDays_ids_mem now ds k _ hmem with hhint | ⟨j, _, heq⟩
  · exact hsafe _ hhint rfl
  · exact repr_ne_mkDayId now j now heq

/-- The identifiers of the fallback trip are pairwise distinct. -/
lemma fallback_ids_nodup (prefs : UserPreferences) (now : Nat) :
    (tripIds (fallbackTrip prefs now)).Nodup := by
  rw [tripIds_fallback]
  refine List.nodup_cons.mpr ⟨?_, List.nodup_cons.mpr ⟨?_, List.nodup_singleton _⟩⟩
  · intro hmem
    rcases List.mem_cons.mp hmem with h | h
    · exact mock_ne_mkFallbackId 0 now h
    · exact mock_ne_mkFallbackId 1 now (List.mem_singleton.mp h)
  · intro hmem
    have h := List.mem_singleton.mp hmem
    have := (mkFallbackId_inj 0 now 1 now h).1
    omega

/-! ### Frame and totality lemmas for the sanitizer -/

/-- Sanitized days always carry real activity arrays. -/
lemma sanitizeDays_all_some (now : Nat) : ∀ (ds : List DayPlan) (k : Nat),
    (sanitizeDays now k ds).all
      (fun d => d.mainActivities.isSome && d.alternatives.isSome) = true := by
  intro ds
  induction ds with
  | nil => intro k; rfl
  | cons d rest ih =>
    intro k
    simp only [sanitizeDays, List.all_cons, sanitizeDay, Option.isSome_some, Bool.and_self,
      Bool.true_and]
    exact ih (k + 1)

/-- Sanitization neither drops nor adds days. -/
lemma sanitizeDays_length (now : Nat) : ∀ (ds : List DayPlan) (k : Nat),
    (sanitizeDays now k ds).length = ds.length := by
  intro ds
  induction ds with
  | nil => intro k; rfl
  | cons d rest ih => intro k; simp [sanitizeDays, ih (k + 1)]

/-- Sanitization leaves `date`, `vibeLabel` and `summary` untouched, in
order. -/
lemma sanitizeDays_map_frame (now : Nat) : ∀ (ds : List DayPlan) (k : Nat),
    (sanitizeDays now k ds).map dayFrame = ds.map dayFrame := by
  intro ds
  induction ds with
  | nil => intro k; rfl
  | cons d rest ih =>
    intro k
    simp only [sanitizeDays, List.map_cons, ih (k + 1)]
    rfl

/-- Indexing into the sanitized day list. -/
lemma sanitizeDays_getElem (now : Nat) : ∀ (ds : List DayPlan) (k i : Nat) (d : DayPlan),
    ds[i]? = some d → (sanitizeDays now k ds)[i]? = some (sanitizeDay now (k + i) d) := by
  intro ds
  induction ds with
  | nil => intro k i d hd; simp at hd
  | cons a rest ih =>
    intro k i d hd
    cases i with
    | zero =>
      simp only [List.getElem?_cons_zero, Option.some.injEq] at hd
      subst hd
      simp [sanitizeDays]
    | succ n =>
      simp only [List.getElem?_cons_succ] at hd
      simp only [sanitizeDays, List.getElem?_cons_succ]
      rw [ih (k + 1) n d hd]
      have harith : k + 1 + n = k + (n + 1) := by omega
      rw [harith]

/-- The fallback day map does not touch content. -/
lemma dayContent_fallbackDay (now i : Nat) (d : DayPlan) :
    dayContent (fallbackDay now i d) = dayContent d := rfl

/-- The fallback day map preserves the mapped content of the whole list. -/
lemma map_dayContent_fallbackDays (now : Nat) : ∀ (ds : List DayPlan) (k : Nat),
    (fallbackDays now k ds).map dayContent = ds.map dayContent := by
  intro ds
  induction ds with
  | nil => intro k; rfl
  | cons d rest ih =>
    intro k
    simp only [fallbackDays, List.map_cons, ih (k + 1), dayContent_fallbackDay]

/-! ### Claim theorems -/

/-- C1: for every preferences input (and every request outcome and freshness
token), `generateTrip` returns a `Trip` whose `days` sequence is present,
and every returned day has present `mainActivities` and `alternatives`
sequences. -/
theorem generateTrip_total (prefs : UserPreferences) (o : ApiOutcome) (now : Nat) :
    (generateTrip prefs o now).days.isSome = true ∧
      ((generateTrip prefs o now).days.getD []).all
        (fun d => d.mainActivities.isSome && d.alternatives.isSome) = true := by
  match o with
  | .transportError => exact ⟨rfl, rfl⟩
  | .emptyText => exact ⟨rfl, rfl⟩
  | .parseError => exact ⟨rfl, rfl⟩
  | .parsed data =>
    cases hd : data.days with
    | none =>
      rw [generateTrip_fallback_of prefs (.parsed data) now (Or.inl hd)]
      exact ⟨rfl, rfl⟩
    | some ds =>
      by_cases hne : ds = []
      · rw [generateTrip_fallback_of prefs (.parsed data) now (Or.inr (hne ▸ hd))]
        exact ⟨rfl, rfl⟩
      · rw [generateTrip_success prefs data now ds hd hne]
        refine ⟨rfl, ?_⟩
        simp only [sanitizedTrip, hd, Option.getD_some]
        exact sanitizeDays_all_some now ds 0

/-- C2: each of the four failure kinds (transport error, empty payload,
parse error, missing or empty `days`) makes `generateTrip` return the
built-in fallback trip; in particular a parsed response with empty `days`
never yields the empty-days value. -/
theorem generateTrip_failure_fallback (prefs : UserPreferences) (now : Nat) (data : Trip)
    (h : data.days = none ∨ data.days = some []) :
    generateTrip prefs .transportError now = fallbackTrip prefs now ∧
    generateTrip prefs .emptyText now = fallbackTrip prefs now ∧
    generateTrip prefs .parseError now = fallbackTrip prefs now ∧
    generateTrip prefs (.parsed data) now = fallbackTrip prefs now ∧
    (generateTrip prefs (.parsed data) now).days ≠ some [] := by
  refine ⟨rfl, rfl, rfl, generateTrip_fallback_of prefs (.parsed data) now h, ?_⟩
  rw [generateTrip_fallback_of prefs (.parsed data) now h]
  intro hcon
  simp [fallbackTrip, fallbackDays, MOCK_TRIP] at hcon

/-- Witness for C2 at a concrete empty-days response. -/
theorem generateTrip_failure_fallback_inst :
    generateTrip prefsUnset .transportError 7 = fallbackTrip prefsUnset 7 ∧
    generateTrip prefsUnset .emptyText 7 = fallbackTrip prefsUnset 7 ∧
    generateTrip prefsUnset .parseError 7 = fallbackTrip prefsUnset 7 ∧
    generateTrip prefsUnset (.parsed dataEmptyDays) 7 = fallbackTrip prefsUnset 7 ∧
    (generateTrip prefsUnset (.parsed dataEmptyDays) 7).days ≠ some [] :=
  generateTrip_failure_fallback prefsUnset 7 dataEmptyDays (Or.inr rfl)

/-- C3: on the success path the returned destination is the parsed one when
present and non-empty, else the caller's non-empty destination, else the
literal `"Unknown Destination"` (an empty caller string counts as absent). -/
theorem generateTrip_destination_chain (prefs : UserPreferences) (data : Trip) (now : Nat)
    (ds : List DayPlan) (h : data.days = some ds) (hne : ds ≠ []) :
    (∀ s, data.destination = some s → s ≠ "" →
      (generateTrip prefs (.parsed data) now).destination = some s) ∧
    ((data.destination = none ∨ data.destination = some "") →
      ∀ p, prefs.destination = some p → p ≠ "" →
      (generateTrip prefs (.parsed data) now).destination = some p) ∧
    ((data.destination = none ∨ data.destination = some "") →
      (prefs.destination = none ∨ prefs.destination = some "") →
      (generateTrip prefs (.parsed data) now).destination = some "Unknown Destination") := by
  rw [generateTrip_success prefs data now ds h hne]
  refine ⟨?_, ?_, ?_⟩
  · intro s hs hsne
    show jsOr data.destination (jsOr prefs.destination (some "Unknown Destination")) = some s
    rw [hs, jsOr_some s _ hsne]
  · intro hd p hp hpne
    show jsOr data.destination (jsOr prefs.destination (some "Unknown Destination")) = some p
    rw [jsOr_unset _ _ hd, hp, jsOr_some p _ hpne]
  · intro hd hp
    show jsOr data.destination (jsOr prefs.destination (some "Unknown Destination"))
        = some "Unknown Destination"
    rw [jsOr_unset _ _ hd, jsOr_unset _ _ hp]

/-- Witness for C3 at a destination-absent response with a Lisbon caller. -/
theorem generateTrip_destination_chain_inst :
    (∀ s, dataGood.destination = some s → s ≠ "" →
      (generateTrip prefsLisbon (.parsed dataGood) 7).destination = some s) ∧
    ((dataGood.destination = none ∨ dataGood.destination = some "") →
      ∀ p, prefsLisbon.destination = some p → p ≠ "" →
      (generateTrip prefsLisbon (.parsed dataGood) 7).destination = some p) ∧
    ((dataGood.destination = none ∨ dataGood.destination = some "") →
      (prefsLisbon.destination = none ∨ prefsLisbon.destination = some "") →
      (generateTrip prefsLisbon (.parsed dataGood) 7).destination
        = some "Unknown Destination") :=
  generateTrip_destination_chain prefsLisbon dataGood 7 [dayCustom, dayNoId] rfl (by simp)

/-- C4 counterexample: a parsed response whose two days both carry the
non-empty id `"x"` is returned with duplicate day ids. -/
theorem generateTrip_dup_hint_ids_cex :
    ¬ (tripIds (generateTrip prefsLisbon (.parsed dataDup) 7)).Nodup := by decide

/-- C4 amended: the identifiers of one generation result are pairwise
distinct, unconditionally on the fallback path, and on the success path
provided the response's non-empty day ids are pairwise distinct and none of
them collides with a synthesized day id or with the generated trip id. -/
theorem generateTrip_ids_nodup (prefs : UserPreferences) (o : ApiOutcome) (now : Nat)
    (h : idHintsOk o now) : (tripIds (generateTrip prefs o now)).Nodup := by
  match o with
  | .transportError => exact fallback_ids_nodup prefs now
  | .emptyText => exact fallback_ids_nodup prefs now
  | .parseError => exact fallback_ids_nodup prefs now
  | .parsed data =>
    have h2 : (hintIdsL (data.days.getD [])).Nodup ∧
        ∀ s ∈ hintIdsL (data.days.getD []),
          (∀ i, s ≠ mkDayId i now) ∧ s ≠ Nat.repr now := h
    cases hd : data.days with
    | none =>
      rw [generateTrip_fallback_of prefs (.parsed data) now (Or.inl hd)]
      exact fallback_ids_nodup prefs now
    | some ds =>
      by_cases hne : ds = []
      · rw [generateTrip_fallback_of prefs (.parsed data) now (Or.inr (hne ▸ hd))]
        exact fallback_ids_nodup prefs now
      · rw [generateTrip_success prefs data now ds hd hne]
        rw [hd] at h2
        simp only [Option.getD_some] at h2
        show (Nat.repr now
            :: (sanitizeDays now 0 (data.days.getD [])).map (fun d => d.id.getD "")).Nodup
        rw [hd]
        simp only [Option.getD_some]
        refine List.nodup_cons.mpr ⟨?_, ?_⟩
        · exact repr_not_mem_sanitizeDays now ds 0 (fun s hs => (h2.2 s hs).2)
        · exact sanitizeDays_ids_nodup now ds 0 h2.1 (fun s hs i => (h2.2 s hs).1 i)

/-- Witness for the amended C4 at a response mixing a custom hint id with a
synthesized one. -/
theorem generateTrip_ids_nodup_inst :
    idHintsOk (.parsed dataGood) 7 ∧
      (tripIds (generateTrip prefsLisbon (.parsed dataGood) 7)).Nodup := by
  have hh : idHintsOk (.parsed dataGood) 7 := by
    refine ⟨by decide, ?_⟩
    intro s hs
    have hlist : hintIdsL (dataGood.days.getD []) = ["custom-1"] := by decide
    rw [hlist] at hs
    have hs2 : s = "custom-1" := List.mem_singleton.mp hs
    subst hs2
    exact ⟨fun i => ne_mkDayId_of_head "custom-1" (by decide) i 7, by decide⟩
  exact ⟨hh, generateTrip_ids_nodup prefsLisbon (.parsed dataGood) 7 hh⟩

/-- C5: two fallback results for the same preferences with distinct
freshness tokens (consecutive calls are separated by the fixed pacing delay)
have pairwise distinct day ids across the two calls. -/
theorem fallback_dayIds_fresh (prefs : UserPreferences) (o1 o2 : ApiOutcome)
    (now1 now2 : Nat) (h1 : takesFallback o1) (h2 : takesFallback o2) (hnow : now1 ≠ now2) :
    (dayIds (generateTrip prefs o1 now1)).Disjoint (dayIds (generateTrip prefs o2 now2)) := by
  rw [generateTrip_fallback_of prefs o1 now1 h1, generateTrip_fallback_of prefs o2 now2 h2,
    dayIds_fallback, dayIds_fallback]
  intro s hs1 hs2
  have e1 : s = mkFallbackId 0 now1 ∨ s = mkFallbackId 1 now1 := by simpa using hs1
  have e2 : s = mkFallbackId 0 now2 ∨ s = mkFallbackId 1 now2 := by simpa using hs2
  rcases e1 with e1 | e1 <;> rcases e2 with e2 | e2 <;>
    exact hnow (mkFallbackId_inj _ _ _ _ (e1.symm.trans e2)).2

/-- Witness for C5 at two concrete failing calls. -/
theorem fallback_dayIds_fresh_inst :
    (dayIds (generateTrip prefsUnset .transportError 7)).Disjoint
      (dayIds (generateTrip prefsUnset .parseError 8)) :=
  fallback_dayIds_fresh prefsUnset .transportError .parseError 7 8 trivial trivial (by decide)

/-- C6: any two fallback results with the caller's destination unset agree on
all non-id content, and their destination is the mock `"Kyoto, Japan"`. -/
theorem fallback_content_deterministic (p1 p2 : UserPreferences) (o1 o2 : ApiOutcome)
    (now1 now2 : Nat) (hf1 : takesFallback o1) (hf2 : takesFallback o2)
    (hd1 : p1.destination = none ∨ p1.destination = some "")
    (hd2 : p2.destination = none ∨ p2.destination = some "") :
    (generateTrip p1 o1 now1).destination = some "Kyoto, Japan" ∧
      tripContent (generateTrip p1 o1 now1) = tripContent (generateTrip p2 o2 now2) := by
  rw [generateTrip_fallback_of p1 o1 now1 hf1, generateTrip_fallback_of p2 o2 now2 hf2]
  have e1 : (fallbackTrip p1 now1).destination = some "Kyoto, Japan" := by
    show jsOr p1.destination MOCK_TRIP.destination = some "Kyoto, Japan"
    rw [jsOr_unset _ _ hd1]
    rfl
  have e2 : (fallbackTrip p2 now2).destination = some "Kyoto, Japan" := by
    show jsOr p2.destination MOCK_TRIP.destination = some "Kyoto, Japan"
    rw [jsOr_unset _ _ hd2]
    rfl
  refine ⟨e1, ?_⟩
  simp only [tripContent, e1, e2]
  show (_, (fallbackDays now1 0 (MOCK_TRIP.days.getD [])).map dayContent)
      = (_, (fallbackDays now2 0 (MOCK_TRIP.days.getD [])).map dayContent)
  rw [map_dayContent_fallbackDays, map_dayContent_fallbackDays]

/-- Witness for C6 at two concrete failing calls with unset destinations. -/
theorem fallback_content_deterministic_inst :
    (generateTrip prefsUnset .emptyText 7).destination = some "Kyoto, Japan" ∧
      tripContent (generateTrip prefsUnset .emptyText 7)
        = tripContent (generateTrip prefsEmptyDest .parseError 8) :=
  fallback_content_deterministic prefsUnset prefsEmptyDest .emptyText .parseError 7 8
    trivial trivial (Or.inl rfl) (Or.inr rfl)

/-- C7: on the success path, a day whose id is present and non-empty keeps
it verbatim, a day without a usable id gets the synthesized position-based
id, and absent activity arrays become empty arrays. -/
theorem sanitize_day_fields (prefs : UserPreferences) (data : Trip) (now : Nat)
    (ds : List DayPlan) (h : data.days = some ds) (hne : ds ≠ []) (i : Nat) (d : DayPlan)
    (hd : ds[i]? = some d) :
    ((generateTrip prefs (.parsed data) now).days.getD [])[i]? = some (sanitizeDay now i d) ∧
    (∀ s, d.id = some s → s ≠ "" → (sanitizeDay now i d).id = some s) ∧
    ((d.id = none ∨ d.id = some "") → (sanitizeDay now i d).id = some (mkDayId i now)) ∧
    (d.mainActivities = none → (sanitizeDay now i d).mainActivities = some []) ∧
    (d.alternatives = none → (sanitizeDay now i d).alternatives = some []) := by
  refine ⟨?_, ?_, ?_, ?_, ?_⟩
  · rw [generateTrip_success prefs data now ds h hne]
    simp only [sanitizedTrip, h, Option.getD_some]
    have hs := sanitizeDays_getElem now ds 0 i d hd
    rw [Nat.zero_add] at hs
    exact hs
  · intro s hs hsne
    rw [sanitizeDay_id]
    simp [resolveId, hs, hsne]
  · intro hun
    rw [sanitizeDay_id]
    rcases hun with hu | hu <;> simp [resolveId, hu]
  · intro hm
    simp [sanitizeDay, hm]
  · intro ha
    simp [sanitizeDay, ha]

/-- Witness for C7 at the day carrying the custom id `"custom-1"`. -/
theorem sanitize_day_fields_inst :
    ((generateTrip prefsLisbon (.parsed dataGood) 7).days.getD [])[0]?
        = some (sanitizeDay 7 0 dayCustom) ∧
    (∀ s, dayCustom.id = some s → s ≠ "" → (sanitizeDay 7 0 dayCustom).id = some s) ∧
    ((dayCustom.id = none ∨ dayCustom.id = some "") →
      (sanitizeDay 7 0 dayCustom).id = some (mkDayId 0 7)) ∧
    (dayCustom.mainActivities = none → (sanitizeDay 7 0 dayCustom).mainActivities = some []) ∧
    (dayCustom.alternatives = none → (sanitizeDay 7 0 dayCustom).alternatives = some []) :=
  sanitize_day_fields prefsLisbon dataGood 7 [dayCustom, dayNoId] rfl (by simp) 0 dayCustom rfl

/-- C8: on the success path the returned day list has exactly the parsed
days, in order, and `date`, `vibeLabel`, `summary` are returned unchanged. -/
theorem generateTrip_frame (prefs : UserPreferences) (data : Trip) (now : Nat)
    (ds : List DayPlan) (h : data.days = some ds) (hne : ds ≠ []) :
    ((generateTrip prefs (.parsed data) now).days.getD []).length = ds.length ∧
    ((generateTrip prefs (.parsed data) now).days.getD []).map dayFrame
      = ds.map dayFrame := by
  rw [generateTrip_success prefs data now ds h hne]
  simp only [sanitizedTrip, h, Option.getD_some]
  exact ⟨sanitizeDays_length now ds 0, sanitizeDays_map_frame now ds 0⟩

/-- Witness for C8 at a two-day response (no padding to three days). -/
theorem generateTrip_frame_inst :
    ((generateTrip prefsLisbon (.parsed dataGood) 7).days.getD []).length
        = [dayCustom, dayNoId].length ∧
    ((generateTrip prefsLisbon (.parsed dataGood) 7).days.getD []).map dayFrame
        = [dayCustom, dayNoId].map dayFrame :=
  generateTrip_frame prefsLisbon dataGood 7 [dayCustom, dayNoId] rfl (by simp)

/-- C9: the top-level id of the parsed response is never used: two responses
differing only in their id produce identical results, and on the success
path the returned id is the locally generated decimal timestamp. -/
theorem generateTrip_id_untrusted (prefs : UserPreferences) (now : Nat) (d1 d2 : Trip)
    (hdest : d1.destination = d2.destination) (hdays : d1.days = d2.days) :
    generateTrip prefs (.parsed d1) now = generateTrip prefs (.parsed d2) now ∧
      ∀ ds, d1.days = some ds → ds ≠ [] →
        (generateTrip prefs (.parsed d1) now).id = some (Nat.repr now) := by
  constructor
  · simp only [generateTrip, hdays]
    cases hd : d2.days with
    | none => rfl
    | some ds =>
      by_cases hlen : ds.length = 0
      · simp [hlen]
      · simp only [hlen, if_false, sanitizedTrip, hdest, hdays]
  · intro ds hds hne
    rw [generateTrip_success prefs d1 now ds hds hne]
    rfl

/-- Witness for C9 at two responses differing only in their id. -/
theorem generateTrip_id_untrusted_inst :
    generateTrip prefsLisbon (.parsed dataGood) 7
        = generateTrip prefsLisbon (.parsed dataGood2) 7 ∧
      ∀ ds, dataGood.days = some ds → ds ≠ [] →
        (generateTrip prefsLisbon (.parsed dataGood) 7).id = some (Nat.repr 7) :=
  generateTrip_id_untrusted prefsLisbon 7 dataGood dataGood2 rfl rfl

/-- C10: every fallback result carries the constant trip id `"mock-trip-1"`,
so all fallback trips share it. -/
theorem fallback_trip_id (prefs : UserPreferences) (o : ApiOutcome) (now : Nat)
    (h : takesFallback o) : (generateTrip prefs o now).id = some "mock-trip-1" := by
  rw [generateTrip_fallback_of prefs o now h]
  rfl

/-- Witness for C10 at a concrete failing call. -/
theorem fallback_trip_id_inst :
    (generateTrip prefsUnset .emptyText 7).id = some "mock-trip-1" :=
  fallback_trip_id prefsUnset .emptyText 7 trivial
